import Mathlib

/-!
Verification of the Myanmar text reshaper
(`_myanmar_text_reshaper` in `models/ir_actions_report.py`, versions v13 and v16).

The reshaper turns the input string into a Python list of one-character
strings, mutates that list in place through a fixed sequence of passes
(each a `for i, v in enumerate(html_list)` scan with small-offset reads
and writes), and joins the cells at the end.

The embedding models a cell as the list of Unicode scalar values of the
string it holds (`[]` is a tombstone, two-scalar fragments are two-element
lists), and reproduces Python list indexing exactly: a negative index
counts from the end of the list, and any index outside `[-len, len)`
raises `IndexError`, modelled as `none`.
-/

namespace MyanmarReshape

/-- One slot of the Python list `html_list`: the scalar values of the string
it holds.  `[]` models the empty string (a tombstone). -/
abbrev Cell := List Nat

/-- The whole `html_list`. -/
abbrev Buffer := List Cell

/-- Python list-index normalisation: a negative index counts from the end;
an index outside `[-n, n)` is an `IndexError` (`none`). -/
def normIdx (n : Nat) (j : Int) : Option Nat :=
  if j < 0 then
    if j + n < 0 then none else some (j + n).toNat
  else if j < n then some j.toNat else none

/-- The read `html_list[j]`, with Python semantics. -/
def pyGet (l : Buffer) (j : Int) : Option Cell :=
  (normIdx l.length j).map fun k => l.getD k []

/-- The write `html_list[j] = c`, with Python semantics. -/
def pySet (l : Buffer) (j : Int) (c : Cell) : Option Buffer :=
  (normIdx l.length j).map fun k => l.set k c

/-- The tuple assignment `html_list[p], html_list[q] = x, y` where the
values `x, y` were already computed: the targets are assigned from left
to right. -/
def pySet2 (l : Buffer) (p q : Int) (x y : Cell) : Option Buffer :=
  match pySet l p x with
  | none => none
  | some l1 => pySet l1 q y

/-- The tuple assignment `html_list[p], html_list[q], html_list[r] = x, y, z`
with the values already computed. -/
def pySet3 (l : Buffer) (p q r : Int) (x y z : Cell) : Option Buffer :=
  match pySet2 l p q x y with
  | none => none
  | some l2 => pySet l2 r z

/-- The swap `html_list[p], html_list[q] = html_list[q], html_list[p]`:
both right-hand sides are read from the old list, then assigned left to
right. -/
def pySwap (l : Buffer) (p q : Int) : Option Buffer :=
  match pyGet l q, pyGet l p with
  | some x, some y => pySet2 l p q x y
  | _, _ => none

/-- The condition `html_list[j] == c`; `none` is an `IndexError`. -/
def pyEq (l : Buffer) (j : Int) (c : Cell) : Option Bool :=
  (pyGet l j).map fun x => decide (x = c)

/-- The condition `html_list[j] in cs`; `none` is an `IndexError`. -/
def pyMem (l : Buffer) (j : Int) (cs : List Cell) : Option Bool :=
  (pyGet l j).map fun x => decide (x ∈ cs)

/-- An in-place action on the buffer; `none` is an uncaught `IndexError`. -/
abbrev Act := Buffer → Option Buffer

/-- Sequencing of two statements. -/
def seq (a b : Act) : Act := fun l =>
  match a l with
  | none => none
  | some l1 => b l1

/-- `if html_list[j] == c: a`. -/
def whenEq (j : Int) (c : Cell) (a : Act) : Act := fun l =>
  match pyEq l j c with
  | none => none
  | some true => a l
  | some false => some l

/-- `if html_list[j] in cs: a`. -/
def whenMem (j : Int) (cs : List Cell) (a : Act) : Act := fun l =>
  match pyMem l j cs with
  | none => none
  | some true => a l
  | some false => some l

/-- `if html_list[j1] == c1 or html_list[j2] == c2: a` (short-circuit `or`). -/
def whenOrEq (j1 : Int) (c1 : Cell) (j2 : Int) (c2 : Cell) (a : Act) : Act := fun l =>
  match pyEq l j1 c1 with
  | none => none
  | some true => a l
  | some false => whenEq j2 c2 a l

/-- `if l[j1] == c1 or l[j2] == c2 or l[j3] == c3: a` (short-circuit `or`). -/
def whenOrEq3 (j1 : Int) (c1 : Cell) (j2 : Int) (c2 : Cell)
    (j3 : Int) (c3 : Cell) (a : Act) : Act := fun l =>
  match pyEq l j1 c1 with
  | none => none
  | some true => a l
  | some false => whenOrEq j2 c2 j3 c3 a l

/-- `if html_list[j1] in cs1 or html_list[j2] in cs2: a` (short-circuit). -/
def whenOrMem (j1 : Int) (cs1 : List Cell) (j2 : Int) (cs2 : List Cell)
    (a : Act) : Act := fun l =>
  match pyMem l j1 cs1 with
  | none => none
  | some true => a l
  | some false => whenMem j2 cs2 a l

/-- `if html_list[j] == c: a else: b`. -/
def ifEq (j : Int) (c : Cell) (a b : Act) : Act := fun l =>
  match pyEq l j c with
  | none => none
  | some true => a l
  | some false => b l

/-- `if html_list[j1] == c1 and html_list[j2] == c2: a else: b`; the second
read happens only when the first comparison is true (short-circuit `and`). -/
def ifAndEq (j1 : Int) (c1 : Cell) (j2 : Int) (c2 : Cell) (a b : Act) : Act := fun l =>
  match pyEq l j1 c1 with
  | none => none
  | some true => ifEq j2 c2 a b l
  | some false => b l

/-- Read `html_list[j]` and continue with the value (a right-hand-side read
of a tuple assignment). -/
def withGet (j : Int) (k : Cell → Act) : Act := fun l =>
  match pyGet l j with
  | none => none
  | some x => k x l

/-- `html_list[j] = c` as a statement. -/
def setA (j : Int) (c : Cell) : Act := fun l => pySet l j c

/-- Two-target tuple assignment with constant values already computed. -/
def set2A (p q : Int) (x y : Cell) : Act := fun l => pySet2 l p q x y

/-- Three-target tuple assignment with values already computed. -/
def set3A (p q r : Int) (x y z : Cell) : Act := fun l => pySet3 l p q r x y z

/-- Swap statement. -/
def swapA (p q : Int) : Act := fun l => pySwap l p q

/-! Character classes appearing in the rules. -/

/-- The stacking medial signs `['ျ', 'ြ', 'ွ', 'ှ']`. -/
def stackSet : List Cell := [[0x103B], [0x103C], [0x103D], [0x103E]]

/-- The v13 first-step trigger set of the E-reorder pass, which also
contains the letter Ra:
`['ျ', 'ြ', 'ွ', 'ှ', 'ရ']`. -/
def stackSetV13 : List Cell := [[0x103B], [0x103C], [0x103D], [0x103E], [0x101B]]

/-- The twelve wide-base consonants of the medial-Ra substitution. -/
def wideSet : List Cell :=
  [[0x1000], [0x1003], [0x100F], [0x1006], [0x1010], [0x1011],
   [0x1018], [0x101A], [0x101C], [0x101E], [0x101F], [0x1021]]

/-- The upper vowel signs `['ိ', 'ီ', 'ဲ']` of the medial-Ra
variant pass. -/
def upperVowels : List Cell := [[0x102D], [0x102E], [0x1032]]

/-- The two medial-Ra forms `['ြ', '']`. -/
def raForms : List Cell := [[0x103C], [0xE1B2]]

/-! The rule bodies, one `Act` per trigger character of each pass,
transcribed statement by statement from `_myanmar_text_reshaper`. -/

/-- Pass 1 body for `v == 'ေ'` (ThaWaiHtoo reorder), with the
version-dependent first trigger set. -/
def reorderEAct (first : List Cell) (i : Int) : Act :=
  whenMem (i-1) first
    (seq (swapA (i-1) i)
      (whenMem (i-2) stackSet
        (seq (swapA (i-2) (i-1))
          (whenMem (i-3) stackSet (swapA (i-3) (i-2))))))

/-- Pass 2 body for `v == 'ြ'` (YaYit reorder): either the marker+E
three-way rotation or a plain adjacent swap. -/
def yayitReorderAct (i : Int) : Act :=
  ifEq (i-1) [0x1031]
    (withGet i fun x0 => withGet (i-2) fun x2 =>
      set3A (i-2) (i-1) i [0x1D, 0x1031] x0 x2)
    (swapA (i-1) i)

/-- Pass 3 body for `v == 'ြ'` (wide-base medial-Ra substitution). -/
def yayitWideAct (i : Int) : Act :=
  whenMem (i+1) wideSet (setA i [0xE1B2])

/-- Pass 4 body for `v == 'န'` (letter Na). -/
def naAct (i : Int) : Act :=
  seq (whenMem (i+1) [[0x102F], [0x1030], [0x103D], [0x103E]] (setA i [0xE107]))
  (seq (whenMem (i+2) [[0x102F], [0x1030]] (setA i [0xE107]))
    (whenEq (i+1) [0x1031]
      (whenMem (i+2) [[0x102F], [0x1030], [0x103D], [0x103E]]
        (withGet (i+2) fun x2 =>
          set3A i (i+1) (i+2) [0x1D, 0x1031] [0xE107] x2))))

/-- Pass 4 body for `v == 'ရ'` (letter Ra). -/
def raLetterAct (i : Int) : Act :=
  seq (whenMem (i+1) [[0x102F], [0x1030]] (setA i [0xE108]))
  (seq (whenMem (i+2) [[0x102F], [0x1030]] (setA i [0xE108]))
    (whenMem (i+3) [[0x102F], [0x1030]] (setA i [0xE108])))

/-- Pass 4 body for `v == 'ု'` (vowel sign U). -/
def uSignAct (i : Int) : Act :=
  seq (whenOrEq (i-1) [0x103B] (i-2) [0x103B] (setA i [0xE2F1]))
    (whenOrMem (i-2) raForms (i-3) raForms (setA i [0xE2F1]))

/-- Pass 4 body for `v == 'ူ'` (vowel sign UU). -/
def uuSignAct (i : Int) : Act :=
  seq (whenOrEq (i-1) [0x103B] (i-2) [0x103B] (setA i [0xE2F2]))
    (whenOrMem (i-2) raForms (i-3) raForms (setA i [0xE2F2]))

/-- Pass 4 body for `v == '့'` (dot below), v13 rule set. -/
def dotActV13 (i : Int) : Act :=
  seq (whenMem (i-1) [[0x102F], [0x1030]] (setA i [0xE037]))
  (seq (whenOrEq (i-1) [0x1014] (i-2) [0x1014] (setA i [0xE037]))
  (seq (whenMem (i-1) [[0xE2F1], [0xE2F2], [0x103D]] (setA i [0xE137]))
  (seq (whenOrEq (i-1) [0x103B] (i-2) [0x103B] (setA i [0xE137]))
    (whenOrEq (i-1) [0x103E] (i-2) [0x103E]
      (ifEq (i-3) [0x101B] (setA i [0xE137]) (setA i [0xE037]))))))

/-- Pass 4 body for `v == '့'` (dot below), v16 rule set. -/
def dotActV16 (i : Int) : Act :=
  seq (whenMem (i-1) [[0x102F], [0x1030]] (setA i [0xE037]))
  (seq (whenOrEq (i-1) [0x1014] (i-2) [0x1014] (setA i [0xE037]))
  (seq (whenOrEq3 (i-1) [0x101B] (i-2) [0x101B] (i-3) [0x101B] (setA i [0xE137]))
  (seq (whenMem (i-1) [[0xE2F1], [0xE2F2]] (setA i [0xE137]))
  (seq (whenOrEq (i-1) [0x103D] (i-2) [0x103D] (setA i [0xE137]))
    (whenOrEq (i-1) [0x103B] (i-2) [0x103B] (setA i [0xE137]))))))

/-- Pass 4 body for `v == 'ှ'` (medial Ha). -/
def haAct (i : Int) : Act :=
  whenMem (i-2) raForms (setA i [0xE1F3])

/-- Pass 5 body for `v == 'ိ'`. -/
def iDotAct (i : Int) : Act :=
  seq (whenEq (i+1) [0x1036] (set2A i (i+1) [0xE2D1] []))
    (whenEq (i+1) [0x1032] (set2A i (i+1) [0xE12D] []))

/-- Pass 5 body for `v == 'ါ'`. -/
def aaAct (i : Int) : Act :=
  seq (whenEq (i+1) [0x103A] (set2A i (i+1) [0xE02D] []))
  (seq (whenEq (i+1) [0x1032] (set2A i (i+1) [0xE52C] []))
    (whenEq (i+1) [0x1036] (set2A i (i+1) [0xE52B] [])))

/-- Pass 5 body for `v == 'ျ'`. -/
def yaAct (i : Int) : Act :=
  seq (whenEq (i+1) [0x103D]
        (seq (set2A i (i+1) [0xE1A4] [])
          (whenEq (i+2) [0x103E]
            (set3A i (i+1) (i+2) [0xE1D1] [0x103B] []))))
    (whenEq (i+1) [0x103E] (set2A i (i+1) [0xE1A3] []))

/-- Pass 5 body for `v == 'ွ'`. -/
def waAct (i : Int) : Act :=
  whenEq (i+1) [0x103E] (set2A i (i+1) [0xE1D1] [])

/-- Pass 5 body for `v == 'ု'`. -/
def uLigAct (i : Int) : Act :=
  seq (whenEq (i-1) [0x103E] (set2A (i-1) i [0xE1F2] []))
    (whenEq (i-2) [0x103E] (set2A (i-2) i [0xE1F2] []))

/-- Pass 5 body for `v == 'ူ'`. -/
def uuLigAct (i : Int) : Act :=
  seq (whenEq (i-1) [0x103E] (set2A (i-1) i [0xE430] []))
    (whenEq (i-2) [0x103E] (set2A (i-2) i [0xE430] []))

/-- Pass 6, Kinzi branch: the Nga+Asat+Virama triple collapses to the
private mark `''` which is then relocated past the following base. -/
def kinziAct (i : Int) : Act :=
  seq (set3A (i-2) (i-1) i [] [] [0xE390])
    (ifEq (i+1) [0x103C]
      (withGet (i+2) fun x2 => withGet i fun x0 =>
        set3A i (i+1) (i+2) [0xE1B6] x2 x0)
      (ifEq (i+1) [0xE1B2]
        (withGet (i+2) fun x2 => withGet i fun x0 =>
          set3A i (i+1) (i+2) [0xE1B7] x2 x0)
        (swapA i (i+1))))

/-- The v13 stacking rule for `'မ'`: a following `'ေ'` is pulled
before the stacked glyph. -/
def maRuleV13 (i : Int) : Act :=
  whenEq (i+1) [0x1019]
    (ifEq (i+2) [0x1031]
      (set3A i (i+1) (i+2) [0x1031] [0xE019] [])
      (set2A i (i+1) [0xE019] []))

/-- The v16 stacking rule for `'မ'`: a plain two-to-one collapse. -/
def maRuleV16 (i : Int) : Act :=
  whenEq (i+1) [0x1019] (set2A i (i+1) [0xE019] [])

/-- Pass 6, stacking branch (virama not part of a Kinzi pattern), with the
version-dependent `'မ'` rule. -/
def stackingAct (maRule : Int → Act) (i : Int) : Act :=
  seq (whenEq (i+1) [0x1000] (set2A i (i+1) [0xE000] []))
  (seq (whenEq (i+1) [0x1001] (set2A i (i+1) [0xE001] []))
  (seq (whenEq (i+1) [0x1002] (set2A i (i+1) [0xE002] []))
  (seq (whenEq (i+1) [0x1003] (set2A i (i+1) [0xE003] []))
  (seq (whenEq (i+1) [0x1005] (set2A i (i+1) [0xE005] []))
  (seq (whenEq (i+1) [0x1006] (set2A i (i+1) [0xE006] []))
  (seq (whenEq (i+1) [0x1007] (set2A i (i+1) [0xE007] []))
  (seq (whenEq (i+1) [0x1008] (set2A i (i+1) [0xE008] []))
  (seq (whenEq (i+1) [0x100A] (set2A i (i+1) [0xE00A] []))
  (seq (whenEq (i+1) [0x100B] (set2A i (i+1) [0xE00B] []))
  (seq (whenEq (i+1) [0x100C] (set2A i (i+1) [0xE00C] []))
  (seq (ifAndEq (i-1) [0x100F] (i+1) [0x100D]
         (set3A (i-1) i (i+1) [0xE105] [] [])
         (whenEq (i+1) [0x100D] (set2A i (i+1) [0xE00D] [])))
  (seq (whenEq (i+1) [0x100E] (set2A i (i+1) [0xE00E] []))
  (seq (whenEq (i+1) [0x100F] (set2A i (i+1) [0xE00F] []))
  (seq (whenEq (i+1) [0x1010] (set2A i (i+1) [0xE010] []))
  (seq (whenEq (i+1) [0x1011] (set2A i (i+1) [0xE011] []))
  (seq (whenEq (i+1) [0x1012] (set2A i (i+1) [0xE012] []))
  (seq (whenEq (i+1) [0x1013] (set2A i (i+1) [0xE013] []))
  (seq (whenEq (i+1) [0x1014] (set2A i (i+1) [0xE014] []))
  (seq (whenEq (i+1) [0x1015] (set2A i (i+1) [0xE015] []))
  (seq (whenEq (i+1) [0x1016] (set2A i (i+1) [0xE016] []))
  (seq (whenEq (i+1) [0x1017] (set2A i (i+1) [0xE017] []))
  (seq (whenEq (i+1) [0x1018] (set2A i (i+1) [0xE018] []))
  (seq (maRule i)
  (seq (whenEq (i+1) [0x101C] (set2A i (i+1) [0xE01C] []))
  (seq (whenEq (i+1) [0x101E] (set2A i (i+1) [0xE01E] []))
  (seq (whenEq (i+1) [0x101F] (set2A i (i+1) [0xE553] []))
  (seq (whenEq (i+1) [0x1021] (set2A i (i+1) [0xE021] []))
  (seq (whenEq (i+2) [0x102F] (setA (i+2) [0xE2F1]))
  (seq (whenEq (i+2) [0x1030] (setA (i+2) [0xE2F2]))
    (whenEq (i-1) [0x1014] (setA (i-1) [0xE107])))))))))))))))))))))))))))))))

/-- Pass 6 body for `v == '္'`: the Kinzi test
`html_list[i-1] == '်' and html_list[i-2] == 'င'` selects
between the Kinzi branch and the stacking branch. -/
def viramaAct (maRule : Int → Act) (i : Int) : Act :=
  ifAndEq (i-1) [0x103A] (i-2) [0x1004] (kinziAct i) (stackingAct maRule i)

/-- Pass 7 body for `v == ''` (Kinzi variant selection). -/
def kinziVarAct (i : Int) : Act :=
  ifEq (i+1) [0x103B]
    (seq (whenEq (i+2) [0x102E]
           (withGet (i+1) fun x1 => set3A i (i+1) (i+2) [0xE392] x1 []))
    (seq (whenEq (i+2) [0x102D]
           (withGet (i+1) fun x1 => set3A i (i+1) (i+2) [0xE391] x1 []))
    (seq (whenEq (i+2) [0x1032]
           (withGet (i+1) fun x1 => set3A i (i+1) (i+2) [0xE396] x1 []))
      (whenEq (i+2) [0x1036]
        (withGet (i+1) fun x1 => set3A i (i+1) (i+2) [0xE393] x1 [])))))
    (seq (whenEq (i+1) [0x102E] (set2A i (i+1) [0xE392] []))
    (seq (whenEq (i+1) [0x102D] (set2A i (i+1) [0xE391] []))
    (seq (whenEq (i+1) [0x1032] (set2A i (i+1) [0xE396] []))
      (whenEq (i+1) [0x1036] (set2A i (i+1) [0xE393] [])))))

/-- Pass 8 body, shared shape of the `'ြ'` and `''` branches:
`g1` is the vowel-context glyph, `g2` the Wa-context glyph. -/
def yayitVarAct (g1 g2 : Cell) (i : Int) : Act :=
  seq (whenMem (i+2) upperVowels (setA i g1))
    (whenEq (i+2) [0x103D]
      (seq (setA i g2) (whenMem (i+3) upperVowels (setA i g1))))

/-! One step function per pass: the loop body executed at index `i`.
`v` is the value of `html_list[i]` at the start of the iteration; the
trigger tests of the source are mutually exclusive because the trigger
characters of a pass are pairwise distinct. -/

/-- Pass 1 step (ThaWaiHtoo reorder), with the version-dependent first
trigger set. -/
def pass1Step (first : List Cell) (l : Buffer) (i : Nat) : Option Buffer :=
  match pyGet l i with
  | none => none
  | some v => if v = [0x1031] then reorderEAct first i l else some l

/-- Pass 2 step (YaYit reorder). -/
def pass2Step (l : Buffer) (i : Nat) : Option Buffer :=
  match pyGet l i with
  | none => none
  | some v => if v = [0x103C] then yayitReorderAct i l else some l

/-- Pass 3 step (wide-base YaYit substitution). -/
def pass3Step (l : Buffer) (i : Nat) : Option Buffer :=
  match pyGet l i with
  | none => none
  | some v => if v = [0x103C] then yayitWideAct i l else some l

/-- Pass 4 step (one-to-one substitutions), with the version-dependent
dot-below rule. -/
def pass4Step (dot : Int → Act) (l : Buffer) (i : Nat) : Option Buffer :=
  match pyGet l i with
  | none => none
  | some v =>
    if v = [0x1014] then naAct i l
    else if v = [0x101B] then raLetterAct i l
    else if v = [0x102F] then uSignAct i l
    else if v = [0x1030] then uuSignAct i l
    else if v = [0x1037] then dot i l
    else if v = [0x103E] then haAct i l
    else some l

/-- Pass 5 step (two-to-one ligature substitutions). -/
def pass5Step (l : Buffer) (i : Nat) : Option Buffer :=
  match pyGet l i with
  | none => none
  | some v =>
    if v = [0x102D] then iDotAct i l
    else if v = [0x102B] then aaAct i l
    else if v = [0x103B] then yaAct i l
    else if v = [0x103D] then waAct i l
    else if v = [0x102F] then uLigAct i l
    else if v = [0x1030] then uuLigAct i l
    else some l

/-- Pass 6 step (virama substitutions), with the version-dependent
stacked-Ma rule. -/
def pass6Step (maRule : Int → Act) (l : Buffer) (i : Nat) : Option Buffer :=
  match pyGet l i with
  | none => none
  | some v => if v = [0x1039] then viramaAct maRule i l else some l

/-- Pass 7 step (Kinzi variant substitutions). -/
def pass7Step (l : Buffer) (i : Nat) : Option Buffer :=
  match pyGet l i with
  | none => none
  | some v => if v = [0xE390] then kinziVarAct i l else some l

/-- Pass 8 step (YaYit variant substitutions). -/
def pass8Step (l : Buffer) (i : Nat) : Option Buffer :=
  match pyGet l i with
  | none => none
  | some v =>
    if v = [0x103C] then yayitVarAct [0xE1B6] [0xE1BB] i l
    else if v = [0xE1B2] then yayitVarAct [0xE1B7] [0xE1BC] i l
    else some l

/-- Run a step function at indices `i, i+1, ...` for `fuel` iterations,
threading the buffer; the first `IndexError` aborts the whole call, as an
uncaught exception does. -/
def runIdx (step : Buffer → Nat → Option Buffer) : Nat → Nat → Buffer → Option Buffer
  | 0, _, l => some l
  | fuel+1, i, l =>
    match step l i with
    | none => none
    | some l1 => runIdx step fuel (i+1) l1

/-- One full pass: `for i, v in enumerate(html_list)`.  Every step writes
in place, so the list length — and hence the iteration count — is the
length at entry. -/
def runPass (step : Buffer → Nat → Option Buffer) (l : Buffer) : Option Buffer :=
  runIdx step l.length 0 l

/-- Run a list of passes in order. -/
def runPasses : List (Buffer → Option Buffer) → Buffer → Option Buffer
  | [], l => some l
  | p :: ps, l =>
    match p l with
    | none => none
    | some l1 => runPasses ps l1

/-- The eight passes of the v13 reshaper, in source order. -/
def passesV13 : List (Buffer → Option Buffer) :=
  [runPass (pass1Step stackSetV13), runPass pass2Step, runPass pass3Step,
   runPass (pass4Step dotActV13), runPass pass5Step,
   runPass (pass6Step maRuleV13), runPass pass7Step, runPass pass8Step]

/-- The eight passes of the v16 reshaper, in source order. -/
def passesV16 : List (Buffer → Option Buffer) :=
  [runPass (pass1Step stackSet), runPass pass2Step, runPass pass3Step,
   runPass (pass4Step dotActV16), runPass pass5Step,
   runPass (pass6Step maRuleV16), runPass pass7Step, runPass pass8Step]

/-- `list(html)`: one cell per input scalar value. -/
def toBuffer (s : List Nat) : Buffer := s.map fun c => [c]

/-- The v13 `_myanmar_text_reshaper` on a sequence of scalar values:
build the cell buffer, run the eight passes, join the cells
(`''.join(map(str, html_list))`).  `none` models an uncaught
`IndexError`. -/
def reshaperV13 (s : List Nat) : Option (List Nat) :=
  (runPasses passesV13 (toBuffer s)).map List.flatten

/-- The v16 `_myanmar_text_reshaper` on a sequence of scalar values. -/
def reshaperV16 (s : List Nat) : Option (List Nat) :=
  (runPasses passesV16 (toBuffer s)).map List.flatten

/-! Modelled from the spec: the bounds-checked rule semantics of spec §7.
The repository's Python code indexes the list raw (negative offsets wrap to
the tail, offsets past the end raise `IndexError`); the spec §7/§9 declares
that behaviour a latent defect and mandates instead that "any offset outside
`[0, length)` evaluates as condition false — never throws, never wraps".
The `bc` definitions below realise that mandated semantics: a comparison at
an out-of-range offset is false, and an assignment or swap any of whose
target offsets is out of range is a non-match (no-op).  Rules and pass
order are otherwise transcribed unchanged from the source. -/

/-- Offset in range `[0, length)`. -/
def inB (n : Nat) (j : Int) : Bool := decide (0 ≤ j) && decide (j < (n : Int))

/-- Bounds-checked `html_list[j] == c`: false when out of range. -/
def bcEq (l : Buffer) (j : Int) (c : Cell) : Bool :=
  inB l.length j && decide (l.getD j.toNat [] = c)

/-- Bounds-checked `html_list[j] in cs`: false when out of range. -/
def bcMem (l : Buffer) (j : Int) (cs : List Cell) : Bool :=
  inB l.length j && decide (l.getD j.toNat [] ∈ cs)

/-- Bounds-checked read used for right-hand-side values. -/
def bcGetD (l : Buffer) (j : Int) : Cell :=
  if inB l.length j then l.getD j.toNat [] else []

/-- Bounds-checked single assignment: skipped when out of range. -/
def bcSet (l : Buffer) (j : Int) (c : Cell) : Buffer :=
  if inB l.length j then l.set j.toNat c else l

/-- Bounds-checked two-target assignment: skipped unless both offsets are
in range. -/
def bcSet2 (l : Buffer) (p q : Int) (x y : Cell) : Buffer :=
  if inB l.length p && inB l.length q then (l.set p.toNat x).set q.toNat y else l

/-- Bounds-checked three-target assignment: skipped unless all offsets are
in range. -/
def bcSet3 (l : Buffer) (p q r : Int) (x y z : Cell) : Buffer :=
  if inB l.length p && inB l.length q && inB l.length r then
    ((l.set p.toNat x).set q.toNat y).set r.toNat z
  else l

/-- Bounds-checked swap. -/
def bcSwap (l : Buffer) (p q : Int) : Buffer :=
  bcSet2 l p q (bcGetD l q) (bcGetD l p)

/-- Pass 1 step under the spec's bounds-checked semantics. -/
def bcPass1Step (first : List Cell) (l : Buffer) (i : Nat) : Buffer :=
  if l.getD i [] = [0x1031] then
    if bcMem l (i-1) first then
      let l1 := bcSwap l (i-1) i
      if bcMem l1 (i-2) stackSet then
        let l2 := bcSwap l1 (i-2) (i-1)
        if bcMem l2 (i-3) stackSet then bcSwap l2 (i-3) (i-2) else l2
      else l1
    else l
  else l

/-- Pass 2 step under the spec's bounds-checked semantics. -/
def bcPass2Step (l : Buffer) (i : Nat) : Buffer :=
  if l.getD i [] = [0x103C] then
    if bcEq l (i-1) [0x1031] then
      bcSet3 l (i-2) (i-1) i [0x1D, 0x1031] (bcGetD l i) (bcGetD l (i-2))
    else bcSwap l (i-1) i
  else l

/-- Pass 3 step under the spec's bounds-checked semantics. -/
def bcPass3Step (l : Buffer) (i : Nat) : Buffer :=
  if l.getD i [] = [0x103C] then
    if bcMem l (i+1) wideSet then bcSet l i [0xE1B2] else l
  else l

/-- Pass 4, letter-Na rule, bounds-checked. -/
def bcNa (l : Buffer) (i : Int) : Buffer :=
  let l1 := if bcMem l (i+1) [[0x102F], [0x1030], [0x103D], [0x103E]] then
              bcSet l i [0xE107] else l
  let l2 := if bcMem l1 (i+2) [[0x102F], [0x1030]] then bcSet l1 i [0xE107] else l1
  if bcEq l2 (i+1) [0x1031] then
    if bcMem l2 (i+2) [[0x102F], [0x1030], [0x103D], [0x103E]] then
      bcSet3 l2 i (i+1) (i+2) [0x1D, 0x1031] [0xE107] (bcGetD l2 (i+2))
    else l2
  else l2

/-- Pass 4, letter-Ra rule, bounds-checked. -/
def bcRaLetter (l : Buffer) (i : Int) : Buffer :=
  let l1 := if bcMem l (i+1) [[0x102F], [0x1030]] then bcSet l i [0xE108] else l
  let l2 := if bcMem l1 (i+2) [[0x102F], [0x1030]] then bcSet l1 i [0xE108] else l1
  if bcMem l2 (i+3) [[0x102F], [0x1030]] then bcSet l2 i [0xE108] else l2

/-- Pass 4, vowel-sign-U rule, bounds-checked (`g` is the output glyph,
`e2F1` for U and `e2F2` for UU). -/
def bcUSign (g : Cell) (l : Buffer) (i : Int) : Buffer :=
  let l1 := if bcEq l (i-1) [0x103B] || bcEq l (i-2) [0x103B] then bcSet l i g else l
  if bcMem l1 (i-2) raForms || bcMem l1 (i-3) raForms then bcSet l1 i g else l1

/-- Pass 4, dot-below rule of v13, bounds-checked. -/
def bcDotV13 (l : Buffer) (i : Int) : Buffer :=
  let l1 := if bcMem l (i-1) [[0x102F], [0x1030]] then bcSet l i [0xE037] else l
  let l2 := if bcEq l1 (i-1) [0x1014] || bcEq l1 (i-2) [0x1014] then
              bcSet l1 i [0xE037] else l1
  let l3 := if bcMem l2 (i-1) [[0xE2F1], [0xE2F2], [0x103D]] then
              bcSet l2 i [0xE137] else l2
  let l4 := if bcEq l3 (i-1) [0x103B] || bcEq l3 (i-2) [0x103B] then
              bcSet l3 i [0xE137] else l3
  if bcEq l4 (i-1) [0x103E] || bcEq l4 (i-2) [0x103E] then
    if bcEq l4 (i-3) [0x101B] then bcSet l4 i [0xE137] else bcSet l4 i [0xE037]
  else l4

/-- Pass 4, dot-below rule of v16, bounds-checked. -/
def bcDotV16 (l : Buffer) (i : Int) : Buffer :=
  let l1 := if bcMem l (i-1) [[0x102F], [0x1030]] then bcSet l i [0xE037] else l
  let l2 := if bcEq l1 (i-1) [0x1014] || bcEq l1 (i-2) [0x1014] then
              bcSet l1 i [0xE037] else l1
  let l3 := if bcEq l2 (i-1) [0x101B] || bcEq l2 (i-2) [0x101B] || bcEq l2 (i-3) [0x101B] then
              bcSet l2 i [0xE137] else l2
  let l4 := if bcMem l3 (i-1) [[0xE2F1], [0xE2F2]] then bcSet l3 i [0xE137] else l3
  let l5 := if bcEq l4 (i-1) [0x103D] || bcEq l4 (i-2) [0x103D] then
              bcSet l4 i [0xE137] else l4
  if bcEq l5 (i-1) [0x103B] || bcEq l5 (i-2) [0x103B] then bcSet l5 i [0xE137] else l5

/-- Pass 4 step, bounds-checked, with the version-dependent dot rule. -/
def bcPass4Step (dot : Buffer → Int → Buffer) (l : Buffer) (i : Nat) : Buffer :=
  let v := l.getD i []
  if v = [0x1014] then bcNa l i
  else if v = [0x101B] then bcRaLetter l i
  else if v = [0x102F] then bcUSign [0xE2F1] l i
  else if v = [0x1030] then bcUSign [0xE2F2] l i
  else if v = [0x1037] then dot l i
  else if v = [0x103E] then
    (if bcMem l (i-2) raForms then bcSet l i [0xE1F3] else l)
  else l

/-- Pass 5 step, bounds-checked. -/
def bcPass5Step (l : Buffer) (i : Nat) : Buffer :=
  let v := l.getD i []
  if v = [0x102D] then
    let l1 := if bcEq l (i+1) [0x1036] then bcSet2 l i (i+1) [0xE2D1] [] else l
    if bcEq l1 (i+1) [0x1032] then bcSet2 l1 i (i+1) [0xE12D] [] else l1
  else if v = [0x102B] then
    let l1 := if bcEq l (i+1) [0x103A] then bcSet2 l i (i+1) [0xE02D] [] else l
    let l2 := if bcEq l1 (i+1) [0x1032] then bcSet2 l1 i (i+1) [0xE52C] [] else l1
    if bcEq l2 (i+1) [0x1036] then bcSet2 l2 i (i+1) [0xE52B] [] else l2
  else if v = [0x103B] then
    let l1 :=
      if bcEq l (i+1) [0x103D] then
        let la := bcSet2 l i (i+1) [0xE1A4] []
        if bcEq la (i+2) [0x103E] then
          bcSet3 la i (i+1) (i+2) [0xE1D1] [0x103B] []
        else la
      else l
    if bcEq l1 (i+1) [0x103E] then bcSet2 l1 i (i+1) [0xE1A3] [] else l1
  else if v = [0x103D] then
    (if bcEq l (i+1) [0x103E] then bcSet2 l i (i+1) [0xE1D1] [] else l)
  else if v = [0x102F] then
    let l1 := if bcEq l (i-1) [0x103E] then bcSet2 l (i-1) i [0xE1F2] [] else l
    if bcEq l1 (i-2) [0x103E] then bcSet2 l1 (i-2) i [0xE1F2] [] else l1
  else if v = [0x1030] then
    let l1 := if bcEq l (i-1) [0x103E] then bcSet2 l (i-1) i [0xE430] [] else l
    if bcEq l1 (i-2) [0x103E] then bcSet2 l1 (i-2) i [0xE430] [] else l1
  else l

/-- One stacked-subscript collapse `virama+cons -> glyph`, bounds-checked. -/
def bcStackOne (l : Buffer) (i : Int) (cons glyph : Cell) : Buffer :=
  if bcEq l (i+1) cons then bcSet2 l i (i+1) glyph [] else l

/-- Pass 6 stacking branch, bounds-checked; `maV13` selects the v13
stacked-Ma rule with its E pull-forward. -/
def bcStacking (maV13 : Bool) (l : Buffer) (i : Int) : Buffer :=
  let l := bcStackOne l i [0x1000] [0xE000]
  let l := bcStackOne l i [0x1001] [0xE001]
  let l := bcStackOne l i [0x1002] [0xE002]
  let l := bcStackOne l i [0x1003] [0xE003]
  let l := bcStackOne l i [0x1005] [0xE005]
  let l := bcStackOne l i [0x1006] [0xE006]
  let l := bcStackOne l i [0x1007] [0xE007]
  let l := bcStackOne l i [0x1008] [0xE008]
  let l := bcStackOne l i [0x100A] [0xE00A]
  let l := bcStackOne l i [0x100B] [0xE00B]
  let l := bcStackOne l i [0x100C] [0xE00C]
  let l :=
    if bcEq l (i-1) [0x100F] && bcEq l (i+1) [0x100D] then
      bcSet3 l (i-1) i (i+1) [0xE105] [] []
    else bcStackOne l i [0x100D] [0xE00D]
  let l := bcStackOne l i [0x100E] [0xE00E]
  let l := bcStackOne l i [0x100F] [0xE00F]
  let l := bcStackOne l i [0x1010] [0xE010]
  let l := bcStackOne l i [0x1011] [0xE011]
  let l := bcStackOne l i [0x1012] [0xE012]
  let l := bcStackOne l i [0x1013] [0xE013]
  let l := bcStackOne l i [0x1014] [0xE014]
  let l := bcStackOne l i [0x1015] [0xE015]
  let l := bcStackOne l i [0x1016] [0xE016]
  let l := bcStackOne l i [0x1017] [0xE017]
  let l := bcStackOne l i [0x1018] [0xE018]
  let l :=
    if maV13 then
      if bcEq l (i+1) [0x1019] then
        if bcEq l (i+2) [0x1031] then bcSet3 l i (i+1) (i+2) [0x1031] [0xE019] []
        else bcSet2 l i (i+1) [0xE019] []
      else l
    else bcStackOne l i [0x1019] [0xE019]
  let l := bcStackOne l i [0x101C] [0xE01C]
  let l := bcStackOne l i [0x101E] [0xE01E]
  let l := bcStackOne l i [0x101F] [0xE553]
  let l := bcStackOne l i [0x1021] [0xE021]
  let l := if bcEq l (i+2) [0x102F] then bcSet l (i+2) [0xE2F1] else l
  let l := if bcEq l (i+2) [0x1030] then bcSet l (i+2) [0xE2F2] else l
  if bcEq l (i-1) [0x1014] then bcSet l (i-1) [0xE107] else l

/-- Pass 6 step, bounds-checked. -/
def bcPass6Step (maV13 : Bool) (l : Buffer) (i : Nat) : Buffer :=
  if l.getD i [] = [0x1039] then
    if bcEq l (i-1) [0x103A] && bcEq l (i-2) [0x1004] then
      let l1 := bcSet3 l (i-2) (i-1) i [] [] [0xE390]
      if bcEq l1 (i+1) [0x103C] then
        bcSet3 l1 i (i+1) (i+2) [0xE1B6] (bcGetD l1 (i+2)) (bcGetD l1 i)
      else if bcEq l1 (i+1) [0xE1B2] then
        bcSet3 l1 i (i+1) (i+2) [0xE1B7] (bcGetD l1 (i+2)) (bcGetD l1 i)
      else bcSwap l1 i (i+1)
    else bcStacking maV13 l i
  else l

/-- One Kinzi-variant collapse, bounds-checked; `ya` tells whether the
optional medial follows the mark. -/
def bcKinziOne (ya : Bool) (l : Buffer) (i : Int) (vowel glyph : Cell) : Buffer :=
  if ya then
    if bcEq l (i+2) vowel then bcSet3 l i (i+1) (i+2) glyph (bcGetD l (i+1)) []
    else l
  else
    if bcEq l (i+1) vowel then bcSet2 l i (i+1) glyph [] else l

/-- Pass 7 step, bounds-checked. -/
def bcPass7Step (l : Buffer) (i : Nat) : Buffer :=
  if l.getD i [] = [0xE390] then
    if bcEq l (i+1) [0x103B] then
      let l1 := bcKinziOne true l i [0x102E] [0xE392]
      let l2 := bcKinziOne true l1 i [0x102D] [0xE391]
      let l3 := bcKinziOne true l2 i [0x1032] [0xE396]
      bcKinziOne true l3 i [0x1036] [0xE393]
    else
      let l1 := bcKinziOne false l i [0x102E] [0xE392]
      let l2 := bcKinziOne false l1 i [0x102D] [0xE391]
      let l3 := bcKinziOne false l2 i [0x1032] [0xE396]
      bcKinziOne false l3 i [0x1036] [0xE393]
  else l

/-- Pass 8 step, bounds-checked. -/
def bcPass8Step (l : Buffer) (i : Nat) : Buffer :=
  let refine : Cell → Cell → Buffer := fun g1 g2 =>
    let l1 := if bcMem l (i+2) upperVowels then bcSet l i g1 else l
    if bcEq l1 (i+2) [0x103D] then
      let l2 := bcSet l1 i g2
      if bcMem l2 (i+3) upperVowels then bcSet l2 i g1 else l2
    else l1
  let v := l.getD i []
  if v = [0x103C] then refine [0xE1B6] [0xE1BB]
  else if v = [0xE1B2] then refine [0xE1B7] [0xE1BC]
  else l

/-- Iterate a total step function over the indices of the buffer. -/
def bcRunIdx (step : Buffer → Nat → Buffer) : Nat → Nat → Buffer → Buffer
  | 0, _, l => l
  | fuel+1, i, l => bcRunIdx step fuel (i+1) (step l i)

/-- One full bounds-checked pass. -/
def bcRunPass (step : Buffer → Nat → Buffer) (l : Buffer) : Buffer :=
  bcRunIdx step l.length 0 l

/-- Modelled from the spec: the v13 reshaper under the bounds-checked
offset semantics that spec §7 mandates in place of the code's raw
indexing; rules and pass order are those of the v13 source. -/
def reshaperSpecV13 (s : List Nat) : List Nat :=
  (bcRunPass bcPass8Step
    (bcRunPass bcPass7Step
      (bcRunPass (bcPass6Step true)
        (bcRunPass bcPass5Step
          (bcRunPass (bcPass4Step bcDotV13)
            (bcRunPass bcPass3Step
              (bcRunPass bcPass2Step
                (bcRunPass (bcPass1Step stackSetV13) (toBuffer s))))))))).flatten

/-- Modelled from the spec: the v16 reshaper under the bounds-checked
offset semantics of spec §7. -/
def reshaperSpecV16 (s : List Nat) : List Nat :=
  (bcRunPass bcPass8Step
    (bcRunPass bcPass7Step
      (bcRunPass (bcPass6Step false)
        (bcRunPass bcPass5Step
          (bcRunPass (bcPass4Step bcDotV16)
            (bcRunPass bcPass3Step
              (bcRunPass bcPass2Step
                (bcRunPass (bcPass1Step stackSet) (toBuffer s))))))))).flatten

/-- Every trigger cell of every pass of both versions: a cell not equal to
any of these is never touched and never causes a neighbour read. -/
def triggers : List Cell :=
  [[0x1031], [0x103C], [0x1014], [0x101B], [0x102F], [0x1030], [0x1037], [0x103E],
   [0x102D], [0x102B], [0x103B], [0x103D], [0x1039], [0xE390], [0xE1B2]]

/-- A scalar value of the Myanmar Unicode block `U+1000..U+109F`. -/
def isMyanmar (c : Nat) : Bool := decide (0x1000 ≤ c) && decide (c ≤ 0x109F)

/-- The input contains at least one Myanmar-block scalar value. -/
def hasMyanmar (s : List Nat) : Bool := s.any isMyanmar

/-- A scalar value that is neither Myanmar-block nor one of the two
private trigger scalars `U+E390` and `U+E1B2`. -/
def cleanChar (c : Nat) : Bool :=
  !isMyanmar c && !decide (c = 0xE390) && !decide (c = 0xE1B2)

/-- The input has no Myanmar-block scalar and no private trigger scalar. -/
def clean (s : List Nat) : Bool := s.all cleanChar

/-- The action preserves the buffer length whenever it completes. -/
def Pres (a : Act) : Prop :=
  ∀ l l', a l = some l' → l'.length = l.length

/-! Length preservation: every primitive write is a `List.set` at a
normalised index, so a completed action never changes the number of
cells. -/

theorem length_pySet {l : Buffer} {j : Int} {c : Cell} {l' : Buffer}
    (h : pySet l j c = some l') : l'.length = l.length := by
  unfold pySet at h
  cases hn : normIdx l.length j with
  | none => rw [hn] at h; cases h
  | some k =>
    rw [hn] at h
    simp only [Option.map_some', Option.some.injEq] at h
    subst h
    simp

theorem length_pySet2 {l : Buffer} {p q : Int} {x y : Cell} {l' : Buffer}
    (h : pySet2 l p q x y = some l') : l'.length = l.length := by
  unfold pySet2 at h
  cases h1 : pySet l p x with
  | none => rw [h1] at h; cases h
  | some l1 =>
    rw [h1] at h
    exact (length_pySet h).trans (length_pySet h1)

theorem length_pySet3 {l : Buffer} {p q r : Int} {x y z : Cell} {l' : Buffer}
    (h : pySet3 l p q r x y z = some l') : l'.length = l.length := by
  unfold pySet3 at h
  cases h1 : pySet2 l p q x y with
  | none => rw [h1] at h; cases h
  | some l2 =>
    rw [h1] at h
    exact (length_pySet h).trans (length_pySet2 h1)

theorem length_pySwap {l : Buffer} {p q : Int} {l' : Buffer}
    (h : pySwap l p q = some l') : l'.length = l.length := by
  unfold pySwap at h
  cases hx : pyGet l q with
  | none => rw [hx] at h; cases h
  | some x =>
    cases hy : pyGet l p with
    | none => rw [hx, hy] at h; cases h
    | some y =>
      rw [hx, hy] at h
      exact length_pySet2 h

theorem pres_setA {j : Int} {c : Cell} : Pres (setA j c) :=
  fun _ _ h => length_pySet h

theorem pres_set2A {p q : Int} {x y : Cell} : Pres (set2A p q x y) :=
  fun _ _ h => length_pySet2 h

theorem pres_set3A {p q r : Int} {x y z : Cell} : Pres (set3A p q r x y z) :=
  fun _ _ h => length_pySet3 h

theorem pres_swapA {p q : Int} : Pres (swapA p q) :=
  fun _ _ h => length_pySwap h

theorem pres_seq {a b : Act} (ha : Pres a) (hb : Pres b) : Pres (seq a b) := by
  intro l l' h
  unfold seq at h
  cases h1 : a l with
  | none => rw [h1] at h; cases h
  | some l1 =>
    rw [h1] at h
    exact (hb l1 l' h).trans (ha l l1 h1)

theorem pres_whenEq {j : Int} {c : Cell} {a : Act} (ha : Pres a) :
    Pres (whenEq j c a) := by
  intro l l' h
  unfold whenEq at h
  cases h1 : pyEq l j c with
  | none => rw [h1] at h; cases h
  | some b =>
    rw [h1] at h
    cases b with
    | true => exact ha l l' h
    | false => cases h; rfl

theorem pres_whenMem {j : Int} {cs : List Cell} {a : Act} (ha : Pres a) :
    Pres (whenMem j cs a) := by
  intro l l' h
  unfold whenMem at h
  cases h1 : pyMem l j cs with
  | none => rw [h1] at h; cases h
  | some b =>
    rw [h1] at h
    cases b with
    | true => exact ha l l' h
    | false => cases h; rfl

theorem pres_whenOrEq {j1 j2 : Int} {c1 c2 : Cell} {a : Act} (ha : Pres a) :
    Pres (whenOrEq j1 c1 j2 c2 a) := by
  intro l l' h
  unfold whenOrEq at h
  cases h1 : pyEq l j1 c1 with
  | none => rw [h1] at h; cases h
  | some b =>
    rw [h1] at h
    cases b with
    | true => exact ha l l' h
    | false => exact pres_whenEq ha l l' h

theorem pres_whenOrEq3 {j1 j2 j3 : Int} {c1 c2 c3 : Cell} {a : Act} (ha : Pres a) :
    Pres (whenOrEq3 j1 c1 j2 c2 j3 c3 a) := by
  intro l l' h
  unfold whenOrEq3 at h
  cases h1 : pyEq l j1 c1 with
  | none => rw [h1] at h; cases h
  | some b =>
    rw [h1] at h
    cases b with
    | true => exact ha l l' h
    | false => exact pres_whenOrEq ha l l' h

theorem pres_whenOrMem {j1 j2 : Int} {cs1 cs2 : List Cell} {a : Act} (ha : Pres a) :
    Pres (whenOrMem j1 cs1 j2 cs2 a) := by
  intro l l' h
  unfold whenOrMem at h
  cases h1 : pyMem l j1 cs1 with
  | none => rw [h1] at h; cases h
  | some b =>
    rw [h1] at h
    cases b with
    | true => exact ha l l' h
    | false => exact pres_whenMem ha l l' h

theorem pres_ifEq {j : Int} {c : Cell} {a b : Act} (ha : Pres a) (hb : Pres b) :
    Pres (ifEq j c a b) := by
  intro l l' h
  unfold ifEq at h
  cases h1 : pyEq l j c with
  | none => rw [h1] at h; cases h
  | some v =>
    rw [h1] at h
    cases v with
    | true => exact ha l l' h
    | false => exact hb l l' h

theorem pres_ifAndEq {j1 j2 : Int} {c1 c2 : Cell} {a b : Act}
    (ha : Pres a) (hb : Pres b) : Pres (ifAndEq j1 c1 j2 c2 a b) := by
  intro l l' h
  unfold ifAndEq at h
  cases h1 : pyEq l j1 c1 with
  | none => rw [h1] at h; cases h
  | some v =>
    rw [h1] at h
    cases v with
    | true => exact pres_ifEq ha hb l l' h
    | false => exact hb l l' h

theorem pres_withGet {j : Int} {k : Cell → Act} (hk : ∀ x, Pres (k x)) :
    Pres (withGet j k) := by
  intro l l' h
  unfold withGet at h
  cases h1 : pyGet l j with
  | none => rw [h1] at h; cases h
  | some x =>
    rw [h1] at h
    exact hk x l l' h

theorem pres_reorderEAct (first : List Cell) (i : Int) : Pres (reorderEAct first i) := by
  unfold reorderEAct
  repeat'
    first
    | exact pres_swapA
    | apply pres_seq
    | apply pres_whenMem

theorem pres_yayitReorderAct (i : Int) : Pres (yayitReorderAct i) := by
  unfold yayitReorderAct
  repeat'
    first
    | exact pres_setA
    | exact pres_set3A
    | exact pres_swapA
    | apply pres_ifEq
    | apply pres_withGet
    | intro x

theorem pres_yayitWideAct (i : Int) : Pres (yayitWideAct i) := by
  unfold yayitWideAct
  exact pres_whenMem pres_setA

theorem pres_naAct (i : Int) : Pres (naAct i) := by
  unfold naAct
  repeat'
    first
    | exact pres_setA
    | exact pres_set3A
    | apply pres_seq
    | apply pres_whenEq
    | apply pres_whenMem
    | apply pres_withGet
    | intro x

theorem pres_raLetterAct (i : Int) : Pres (raLetterAct i) := by
  unfold raLetterAct
  repeat'
    first
    | exact pres_setA
    | apply pres_seq
    | apply pres_whenMem

theorem pres_uSignAct (i : Int) : Pres (uSignAct i) := by
  unfold uSignAct
  repeat'
    first
    | exact pres_setA
    | apply pres_seq
    | apply pres_whenOrEq
    | apply pres_whenOrMem

theorem pres_uuSignAct (i : Int) : Pres (uuSignAct i) := by
  unfold uuSignAct
  repeat'
    first
    | exact pres_setA
    | apply pres_seq
    | apply pres_whenOrEq
    | apply pres_whenOrMem

theorem pres_dotActV13 (i : Int) : Pres (dotActV13 i) := by
  unfold dotActV13
  repeat'
    first
    | exact pres_setA
    | apply pres_seq
    | apply pres_whenMem
    | apply pres_whenOrEq
    | apply pres_ifEq

theorem pres_dotActV16 (i : Int) : Pres (dotActV16 i) := by
  unfold dotActV16
  repeat'
    first
    | exact pres_setA
    | apply pres_seq
    | apply pres_whenMem
    | apply pres_whenOrEq
    | apply pres_whenOrEq3

theorem pres_haAct (i : Int) : Pres (haAct i) := by
  unfold haAct
  exact pres_whenMem pres_setA

theorem pres_iDotAct (i : Int) : Pres (iDotAct i) := by
  unfold iDotAct
  repeat'
    first
    | exact pres_set2A
    | apply pres_seq
    | apply pres_whenEq

theorem pres_aaAct (i : Int) : Pres (aaAct i) := by
  unfold aaAct
  repeat'
    first
    | exact pres_set2A
    | apply pres_seq
    | apply pres_whenEq

theorem pres_yaAct (i : Int) : Pres (yaAct i) := by
  unfold yaAct
  repeat'
    first
    | exact pres_set2A
    | exact pres_set3A
    | apply pres_seq
    | apply pres_whenEq

theorem pres_waAct (i : Int) : Pres (waAct i) := by
  unfold waAct
  exact pres_whenEq pres_set2A

theorem pres_uLigAct (i : Int) : Pres (uLigAct i) := by
  unfold uLigAct
  exact pres_seq (pres_whenEq pres_set2A) (pres_whenEq pres_set2A)

theorem pres_uuLigAct (i : Int) : Pres (uuLigAct i) := by
  unfold uuLigAct
  exact pres_seq (pres_whenEq pres_set2A) (pres_whenEq pres_set2A)

theorem pres_kinziAct (i : Int) : Pres (kinziAct i) := by
  unfold kinziAct
  repeat'
    first
    | exact pres_set3A
    | exact pres_swapA
    | apply pres_seq
    | apply pres_ifEq
    | apply pres_withGet
    | intro x

theorem pres_maRuleV13 (i : Int) : Pres (maRuleV13 i) := by
  unfold maRuleV13
  exact pres_whenEq (pres_ifEq pres_set3A pres_set2A)

theorem pres_maRuleV16 (i : Int) : Pres (maRuleV16 i) := by
  unfold maRuleV16
  exact pres_whenEq pres_set2A

theorem pres_stackingAct {maRule : Int → Act} (hma : ∀ i, Pres (maRule i)) (i : Int) :
    Pres (stackingAct maRule i) := by
  unfold stackingAct
  repeat'
    first
    | exact hma i
    | exact pres_setA
    | exact pres_set2A
    | exact pres_set3A
    | apply pres_seq
    | apply pres_whenEq
    | apply pres_ifAndEq

theorem pres_viramaAct {maRule : Int → Act} (hma : ∀ i, Pres (maRule i)) (i : Int) :
    Pres (viramaAct maRule i) := by
  unfold viramaAct
  exact pres_ifAndEq (pres_kinziAct i) (pres_stackingAct hma i)

theorem pres_kinziVarAct (i : Int) : Pres (kinziVarAct i) := by
  unfold kinziVarAct
  repeat'
    first
    | exact pres_set2A
    | exact pres_set3A
    | apply pres_seq
    | apply pres_whenEq
    | apply pres_ifEq
    | apply pres_withGet
    | intro x

theorem pres_yayitVarAct (g1 g2 : Cell) (i : Int) : Pres (yayitVarAct g1 g2 i) := by
  unfold yayitVarAct
  repeat'
    first
    | exact pres_setA
    | apply pres_seq
    | apply pres_whenEq
    | apply pres_whenMem

theorem pass1Step_len (first : List Cell) {l : Buffer} {i : Nat} {l' : Buffer}
    (h : pass1Step first l i = some l') : l'.length = l.length := by
  unfold pass1Step at h
  repeat' split at h
  all_goals
    first
    | (injection h with h; subst h; rfl)
    | injection h
    | exact pres_reorderEAct first i l l' h

theorem pass2Step_len {l : Buffer} {i : Nat} {l' : Buffer}
    (h : pass2Step l i = some l') : l'.length = l.length := by
  unfold pass2Step at h
  repeat' split at h
  all_goals
    first
    | (injection h with h; subst h; rfl)
    | injection h
    | exact pres_yayitReorderAct i l l' h

theorem pass3Step_len {l : Buffer} {i : Nat} {l' : Buffer}
    (h : pass3Step l i = some l') : l'.length = l.length := by
  unfold pass3Step at h
  repeat' split at h
  all_goals
    first
    | (injection h with h; subst h; rfl)
    | injection h
    | exact pres_yayitWideAct i l l' h

theorem pass4Step_len {dot : Int → Act} (hdot : ∀ i, Pres (dot i))
    {l : Buffer} {i : Nat} {l' : Buffer}
    (h : pass4Step dot l i = some l') : l'.length = l.length := by
  unfold pass4Step at h
  repeat' split at h
  all_goals
    first
    | (injection h with h; subst h; rfl)
    | injection h
    | exact pres_naAct i l l' h
    | exact pres_raLetterAct i l l' h
    | exact pres_uSignAct i l l' h
    | exact pres_uuSignAct i l l' h
    | exact hdot i l l' h
    | exact pres_haAct i l l' h

theorem pass5Step_len {l : Buffer} {i : Nat} {l' : Buffer}
    (h : pass5Step l i = some l') : l'.length = l.length := by
  unfold pass5Step at h
  repeat' split at h
  all_goals
    first
    | (injection h with h; subst h; rfl)
    | injection h
    | exact pres_iDotAct i l l' h
    | exact pres_aaAct i l l' h
    | exact pres_yaAct i l l' h
    | exact pres_waAct i l l' h
    | exact pres_uLigAct i l l' h
    | exact pres_uuLigAct i l l' h

theorem pass6Step_len {maRule : Int → Act} (hma : ∀ i, Pres (maRule i))
    {l : Buffer} {i : Nat} {l' : Buffer}
    (h : pass6Step maRule l i = some l') : l'.length = l.length := by
  unfold pass6Step at h
  repeat' split at h
  all_goals
    first
    | (injection h with h; subst h; rfl)
    | injection h
    | exact pres_viramaAct hma i l l' h

theorem pass7Step_len {l : Buffer} {i : Nat} {l' : Buffer}
    (h : pass7Step l i = some l') : l'.length = l.length := by
  unfold pass7Step at h
  repeat' split at h
  all_goals
    first
    | (injection h with h; subst h; rfl)
    | injection h
    | exact pres_kinziVarAct i l l' h

theorem pass8Step_len {l : Buffer} {i : Nat} {l' : Buffer}
    (h : pass8Step l i = some l') : l'.length = l.length := by
  unfold pass8Step at h
  repeat' split at h
  all_goals
    first
    | (injection h with h; subst h; rfl)
    | injection h
    | exact pres_yayitVarAct [0xE1B6] [0xE1BB] i l l' h
    | exact pres_yayitVarAct [0xE1B7] [0xE1BC] i l l' h

theorem runIdx_len {step : Buffer → Nat → Option Buffer}
    (hstep : ∀ l i l', step l i = some l' → l'.length = l.length) :
    ∀ fuel i l l', runIdx step fuel i l = some l' → l'.length = l.length := by
  intro fuel
  induction fuel with
  | zero => intro i l l' h; cases h; rfl
  | succ n ih =>
    intro i l l' h
    unfold runIdx at h
    cases h1 : step l i with
    | none => rw [h1] at h; cases h
    | some l1 =>
      rw [h1] at h
      exact (ih (i+1) l1 l' h).trans (hstep l i l1 h1)

theorem runPass_len {step : Buffer → Nat → Option Buffer}
    (hstep : ∀ l i l', step l i = some l' → l'.length = l.length) :
    ∀ l l', runPass step l = some l' → l'.length = l.length :=
  fun l l' h => runIdx_len hstep l.length 0 l l' h

theorem presAllV13 : ∀ p ∈ passesV13, ∀ l l', p l = some l' → l'.length = l.length := by
  intro p hp
  simp only [passesV13, List.mem_cons, List.not_mem_nil, or_false] at hp
  rcases hp with rfl | rfl | rfl | rfl | rfl | rfl | rfl | rfl
  · exact runPass_len fun l i l' h => pass1Step_len stackSetV13 h
  · exact runPass_len fun l i l' h => pass2Step_len h
  · exact runPass_len fun l i l' h => pass3Step_len h
  · exact runPass_len fun l i l' h => pass4Step_len pres_dotActV13 h
  · exact runPass_len fun l i l' h => pass5Step_len h
  · exact runPass_len fun l i l' h => pass6Step_len pres_maRuleV13 h
  · exact runPass_len fun l i l' h => pass7Step_len h
  · exact runPass_len fun l i l' h => pass8Step_len h

theorem presAllV16 : ∀ p ∈ passesV16, ∀ l l', p l = some l' → l'.length = l.length := by
  intro p hp
  simp only [passesV16, List.mem_cons, List.not_mem_nil, or_false] at hp
  rcases hp with rfl | rfl | rfl | rfl | rfl | rfl | rfl | rfl
  · exact runPass_len fun l i l' h => pass1Step_len stackSet h
  · exact runPass_len fun l i l' h => pass2Step_len h
  · exact runPass_len fun l i l' h => pass3Step_len h
  · exact runPass_len fun l i l' h => pass4Step_len pres_dotActV16 h
  · exact runPass_len fun l i l' h => pass5Step_len h
  · exact runPass_len fun l i l' h => pass6Step_len pres_maRuleV16 h
  · exact runPass_len fun l i l' h => pass7Step_len h
  · exact runPass_len fun l i l' h => pass8Step_len h

theorem runPasses_len : ∀ ps : List (Buffer → Option Buffer),
    (∀ p ∈ ps, ∀ l l', p l = some l' → l'.length = l.length) →
    ∀ l l', runPasses ps l = some l' → l'.length = l.length := by
  intro ps
  induction ps with
  | nil => intro _ l l' h; cases h; rfl
  | cons p rest ih =>
    intro hall l l' h
    unfold runPasses at h
    cases h1 : p l with
    | none => rw [h1] at h; cases h
    | some l1 =>
      rw [h1] at h
      exact (ih (fun q hq => hall q (List.mem_cons_of_mem p hq)) l1 l' h).trans
        (hall p (List.mem_cons_self p rest) l l1 h1)

/-! Identity on inputs without trigger characters: a cell that differs
from every trigger is never matched, so the whole call returns its input
unchanged. -/

theorem pyGet_lt {l : Buffer} {i : Nat} (h : i < l.length) :
    pyGet l ↑i = some (l.getD i []) := by
  unfold pyGet normIdx
  rw [if_neg (by omega), if_pos (by exact_mod_cast h)]
  simp

theorem pass1Step_id (first : List Cell) {l : Buffer} {i : Nat}
    (hi : i < l.length) (hv : l.getD i [] ∉ triggers) :
    pass1Step first l i = some l := by
  simp only [triggers, List.mem_cons, List.not_mem_nil, or_false, not_or] at hv
  obtain ⟨h1, h2, h3, h4, h5, h6, h7, h8, h9, h10, h11, h12, h13, h14, h15⟩ := hv
  simp only [List.getD_eq_getElem?_getD] at h1 h2 h3 h4 h5 h6 h7 h8 h9 h10 h11 h12 h13 h14 h15
  unfold pass1Step
  rw [pyGet_lt hi]
  simp [h1]

theorem pass2Step_id {l : Buffer} {i : Nat}
    (hi : i < l.length) (hv : l.getD i [] ∉ triggers) :
    pass2Step l i = some l := by
  simp only [triggers, List.mem_cons, List.not_mem_nil, or_false, not_or] at hv
  obtain ⟨h1, h2, h3, h4, h5, h6, h7, h8, h9, h10, h11, h12, h13, h14, h15⟩ := hv
  simp only [List.getD_eq_getElem?_getD] at h1 h2 h3 h4 h5 h6 h7 h8 h9 h10 h11 h12 h13 h14 h15
  unfold pass2Step
  rw [pyGet_lt hi]
  simp [h2]

theorem pass3Step_id {l : Buffer} {i : Nat}
    (hi : i < l.length) (hv : l.getD i [] ∉ triggers) :
    pass3Step l i = some l := by
  simp only [triggers, List.mem_cons, List.not_mem_nil, or_false, not_or] at hv
  obtain ⟨h1, h2, h3, h4, h5, h6, h7, h8, h9, h10, h11, h12, h13, h14, h15⟩ := hv
  simp only [List.getD_eq_getElem?_getD] at h1 h2 h3 h4 h5 h6 h7 h8 h9 h10 h11 h12 h13 h14 h15
  unfold pass3Step
  rw [pyGet_lt hi]
  simp [h2]

theorem pass4Step_id (dot : Int → Act) {l : Buffer} {i : Nat}
    (hi : i < l.length) (hv : l.getD i [] ∉ triggers) :
    pass4Step dot l i = some l := by
  simp only [triggers, List.mem_cons, List.not_mem_nil, or_false, not_or] at hv
  obtain ⟨h1, h2, h3, h4, h5, h6, h7, h8, h9, h10, h11, h12, h13, h14, h15⟩ := hv
  simp only [List.getD_eq_getElem?_getD] at h1 h2 h3 h4 h5 h6 h7 h8 h9 h10 h11 h12 h13 h14 h15
  unfold pass4Step
  rw [pyGet_lt hi]
  simp [h3, h4, h5, h6, h7, h8]

theorem pass5Step_id {l : Buffer} {i : Nat}
    (hi : i < l.length) (hv : l.getD i [] ∉ triggers) :
    pass5Step l i = some l := by
  simp only [triggers, List.mem_cons, List.not_mem_nil, or_false, not_or] at hv
  obtain ⟨h1, h2, h3, h4, h5, h6, h7, h8, h9, h10, h11, h12, h13, h14, h15⟩ := hv
  simp only [List.getD_eq_getElem?_getD] at h1 h2 h3 h4 h5 h6 h7 h8 h9 h10 h11 h12 h13 h14 h15
  unfold pass5Step
  rw [pyGet_lt hi]
  simp [h5, h6, h9, h10, h11, h12]

theorem pass6Step_id (maRule : Int → Act) {l : Buffer} {i : Nat}
    (hi : i < l.length) (hv : l.getD i [] ∉ triggers) :
    pass6Step maRule l i = some l := by
  simp only [triggers, List.mem_cons, List.not_mem_nil, or_false, not_or] at hv
  obtain ⟨h1, h2, h3, h4, h5, h6, h7, h8, h9, h10, h11, h12, h13, h14, h15⟩ := hv
  simp only [List.getD_eq_getElem?_getD] at h1 h2 h3 h4 h5 h6 h7 h8 h9 h10 h11 h12 h13 h14 h15
  unfold pass6Step
  rw [pyGet_lt hi]
  simp [h13]

theorem pass7Step_id {l : Buffer} {i : Nat}
    (hi : i < l.length) (hv : l.getD i [] ∉ triggers) :
    pass7Step l i = some l := by
  simp only [triggers, List.mem_cons, List.not_mem_nil, or_false, not_or] at hv
  obtain ⟨h1, h2, h3, h4, h5, h6, h7, h8, h9, h10, h11, h12, h13, h14, h15⟩ := hv
  simp only [List.getD_eq_getElem?_getD] at h1 h2 h3 h4 h5 h6 h7 h8 h9 h10 h11 h12 h13 h14 h15
  unfold pass7Step
  rw [pyGet_lt hi]
  simp [h14]

theorem pass8Step_id {l : Buffer} {i : Nat}
    (hi : i < l.length) (hv : l.getD i [] ∉ triggers) :
    pass8Step l i = some l := by
  simp only [triggers, List.mem_cons, List.not_mem_nil, or_false, not_or] at hv
  obtain ⟨h1, h2, h3, h4, h5, h6, h7, h8, h9, h10, h11, h12, h13, h14, h15⟩ := hv
  simp only [List.getD_eq_getElem?_getD] at h1 h2 h3 h4 h5 h6 h7 h8 h9 h10 h11 h12 h13 h14 h15
  unfold pass8Step
  rw [pyGet_lt hi]
  simp [h2, h15]

theorem runIdx_id {step : Buffer → Nat → Option Buffer} {l : Buffer}
    (hstep : ∀ i, i < l.length → step l i = some l) :
    ∀ fuel i, i + fuel ≤ l.length → runIdx step fuel i l = some l := by
  intro fuel
  induction fuel with
  | zero => intro i _; rfl
  | succ n ih =>
    intro i h
    unfold runIdx
    rw [hstep i (by omega)]
    exact ih (i+1) (by omega)

theorem runPass_id {step : Buffer → Nat → Option Buffer} {l : Buffer}
    (hstep : ∀ i, i < l.length → step l i = some l) :
    runPass step l = some l :=
  runIdx_id hstep l.length 0 (by omega)

theorem runPasses_id {l : Buffer} : ∀ ps : List (Buffer → Option Buffer),
    (∀ p ∈ ps, p l = some l) → runPasses ps l = some l := by
  intro ps
  induction ps with
  | nil => intro _; rfl
  | cons p rest ih =>
    intro hall
    unfold runPasses
    rw [hall p (List.mem_cons_self p rest)]
    exact ih fun q hq => hall q (List.mem_cons_of_mem p hq)

theorem toBuffer_length (s : List Nat) : (toBuffer s).length = s.length := by
  simp [toBuffer]

theorem toBuffer_getD : ∀ (s : List Nat) (i : Nat), i < s.length →
    (toBuffer s).getD i [] = [s.getD i 0] := by
  intro s
  induction s with
  | nil => intro i h; simp at h
  | cons c t ih =>
    intro i h
    cases i with
    | zero => rfl
    | succ n => exact ih n (by simpa using h)

theorem flatten_toBuffer (s : List Nat) : (toBuffer s).flatten = s := by
  induction s with
  | nil => rfl
  | cons c t ih => simp only [toBuffer, List.map_cons, List.flatten_cons] at *; simp [ih]

theorem cleanChar_not_trigger {c : Nat} (hc : cleanChar c = true) :
    ([c] : Cell) ∉ triggers := by
  intro hmem
  simp only [cleanChar, isMyanmar, Bool.and_eq_true, Bool.not_eq_true',
    Bool.and_eq_false_iff, decide_eq_false_iff_not, decide_eq_true_eq,
    not_le] at hc
  simp only [triggers, List.mem_cons, List.cons.injEq, and_true,
    List.not_mem_nil, or_false] at hmem
  rcases hmem with h | h | h | h | h | h | h | h | h | h | h | h | h | h | h <;>
    subst h <;> omega

theorem clean_not_trigger {s : List Nat} (hs : clean s = true)
    {i : Nat} (hi : i < (toBuffer s).length) : (toBuffer s).getD i [] ∉ triggers := by
  rw [toBuffer_length] at hi
  rw [toBuffer_getD s i hi]
  apply cleanChar_not_trigger
  have hall : ∀ c ∈ s, cleanChar c = true := by
    simpa [clean, List.all_eq_true] using hs
  apply hall
  rw [List.getD_eq_getElem s 0 hi]
  exact List.getElem_mem hi

theorem reshaperV13_id {s : List Nat} (hs : clean s = true) :
    reshaperV13 s = some s := by
  have hpass : ∀ p ∈ passesV13, p (toBuffer s) = some (toBuffer s) := by
    intro p hp
    simp only [passesV13, List.mem_cons, List.not_mem_nil, or_false] at hp
    rcases hp with rfl | rfl | rfl | rfl | rfl | rfl | rfl | rfl
    · exact runPass_id fun i hi => pass1Step_id stackSetV13 hi (clean_not_trigger hs hi)
    · exact runPass_id fun i hi => pass2Step_id hi (clean_not_trigger hs hi)
    · exact runPass_id fun i hi => pass3Step_id hi (clean_not_trigger hs hi)
    · exact runPass_id fun i hi => pass4Step_id dotActV13 hi (clean_not_trigger hs hi)
    · exact runPass_id fun i hi => pass5Step_id hi (clean_not_trigger hs hi)
    · exact runPass_id fun i hi => pass6Step_id maRuleV13 hi (clean_not_trigger hs hi)
    · exact runPass_id fun i hi => pass7Step_id hi (clean_not_trigger hs hi)
    · exact runPass_id fun i hi => pass8Step_id hi (clean_not_trigger hs hi)
  unfold reshaperV13
  rw [runPasses_id passesV13 hpass]
  simp [flatten_toBuffer]

theorem reshaperV16_id {s : List Nat} (hs : clean s = true) :
    reshaperV16 s = some s := by
  have hpass : ∀ p ∈ passesV16, p (toBuffer s) = some (toBuffer s) := by
    intro p hp
    simp only [passesV16, List.mem_cons, List.not_mem_nil, or_false] at hp
    rcases hp with rfl | rfl | rfl | rfl | rfl | rfl | rfl | rfl
    · exact runPass_id fun i hi => pass1Step_id stackSet hi (clean_not_trigger hs hi)
    · exact runPass_id fun i hi => pass2Step_id hi (clean_not_trigger hs hi)
    · exact runPass_id fun i hi => pass3Step_id hi (clean_not_trigger hs hi)
    · exact runPass_id fun i hi => pass4Step_id dotActV16 hi (clean_not_trigger hs hi)
    · exact runPass_id fun i hi => pass5Step_id hi (clean_not_trigger hs hi)
    · exact runPass_id fun i hi => pass6Step_id maRuleV16 hi (clean_not_trigger hs hi)
    · exact runPass_id fun i hi => pass7Step_id hi (clean_not_trigger hs hi)
    · exact runPass_id fun i hi => pass8Step_id hi (clean_not_trigger hs hi)
  unfold reshaperV16
  rw [runPasses_id passesV16 hpass]
  simp [flatten_toBuffer]

/-! The claims. -/

/-- C1.  The claim says `_myanmar_text_reshaper` never raises and that an
out-of-range neighbour offset is a non-match that never wraps to the other
end of the buffer.  The code as written does neither: on the
single-character input `U+103C` both versions raise `IndexError` (pass 3
reads `html_list[i+1]` past the end), and on `U+1031 x x U+103D` the
`i-1` read of pass 1 wraps to the last cell, so the first and last
characters are exchanged.  Under the bounds-checked semantics the spec
mandates, both inputs pass through unchanged. -/
theorem C1_oob_access_raises_and_wraps :
    reshaperV13 [0x103C] = none ∧
    reshaperV16 [0x103C] = none ∧
    reshaperV13 [0x1031, 0x78, 0x78, 0x103D] = some [0x103D, 0x78, 0x78, 0x1031] ∧
    reshaperSpecV13 [0x103C] = [0x103C] ∧
    reshaperSpecV13 [0x1031, 0x78, 0x78, 0x103D] = [0x1031, 0x78, 0x78, 0x103D] := by
  refine ⟨by decide, by decide, by decide, by decide, by decide⟩

/-- C2.  On the Kinzi scenario input `U+1004 U+103A U+1039 U+1000` the
code of both versions raises `IndexError`: after the triple collapses and
the mark swaps past Ka, the Kinzi-variant pass finds `U+E390` in the last
cell and reads `html_list[i+1]` one past the end.  Under the
bounds-checked semantics the spec mandates, both versions return exactly
`U+1000 U+E390`, as the claim states. -/
theorem C2_kinzi_scenario :
    reshaperV13 [0x1004, 0x103A, 0x1039, 0x1000] = none ∧
    reshaperV16 [0x1004, 0x103A, 0x1039, 0x1000] = none ∧
    reshaperSpecV13 [0x1004, 0x103A, 0x1039, 0x1000] = [0x1000, 0xE390] ∧
    reshaperSpecV16 [0x1004, 0x103A, 0x1039, 0x1000] = [0x1000, 0xE390] := by
  refine ⟨by decide, by decide, by decide, by decide⟩

/-- C3, counterexample.  The claim promises identity on every input with
no Myanmar-block scalar, but the single private scalars `U+E390` and
`U+E1B2` (outside the Myanmar block) are trigger characters: on either
one-character input both versions raise `IndexError` instead of returning
the input. -/
theorem C3_counterexample_private_scalars :
    hasMyanmar [0xE390] = false ∧
    reshaperV13 [0xE390] = none ∧ reshaperV16 [0xE390] = none ∧
    hasMyanmar [0xE1B2] = false ∧
    reshaperV13 [0xE1B2] = none ∧ reshaperV16 [0xE1B2] = none := by
  refine ⟨by decide, by decide, by decide, by decide, by decide, by decide⟩

/-- C3, amended.  For every input that contains no Myanmar-block scalar
value and neither of the private trigger scalars `U+E390`, `U+E1B2`,
both reshaper versions return the input unchanged. -/
theorem C3_identity_on_trigger_free :
    ∀ s : List Nat, clean s = true →
      reshaperV13 s = some s ∧ reshaperV16 s = some s :=
  fun _ hs => ⟨reshaperV13_id hs, reshaperV16_id hs⟩

/-- C3, witness: the amended identity applied to the spec's own example
`"<b>Hello</b>"` and to the empty string. -/
theorem C3_identity_on_trigger_free_witness :
    clean [0x3C, 0x62, 0x3E, 0x48, 0x65, 0x6C, 0x6C, 0x6F, 0x3C, 0x2F, 0x62, 0x3E] = true ∧
    reshaperV13 [0x3C, 0x62, 0x3E, 0x48, 0x65, 0x6C, 0x6C, 0x6F, 0x3C, 0x2F, 0x62, 0x3E] =
      some [0x3C, 0x62, 0x3E, 0x48, 0x65, 0x6C, 0x6C, 0x6F, 0x3C, 0x2F, 0x62, 0x3E] ∧
    reshaperV16 [0x3C, 0x62, 0x3E, 0x48, 0x65, 0x6C, 0x6C, 0x6F, 0x3C, 0x2F, 0x62, 0x3E] =
      some [0x3C, 0x62, 0x3E, 0x48, 0x65, 0x6C, 0x6C, 0x6F, 0x3C, 0x2F, 0x62, 0x3E] ∧
    reshaperV13 [] = some [] ∧ reshaperV16 [] = some [] :=
  ⟨by decide,
   (C3_identity_on_trigger_free
     [0x3C, 0x62, 0x3E, 0x48, 0x65, 0x6C, 0x6C, 0x6F, 0x3C, 0x2F, 0x62, 0x3E] (by decide)).1,
   (C3_identity_on_trigger_free
     [0x3C, 0x62, 0x3E, 0x48, 0x65, 0x6C, 0x6C, 0x6F, 0x3C, 0x2F, 0x62, 0x3E] (by decide)).2,
   (C3_identity_on_trigger_free [] (by decide)).1,
   (C3_identity_on_trigger_free [] (by decide)).2⟩

/-- C4.  Scenario 1: on `U+1014 U+1031 U+102F` both versions return
exactly the four scalars `U+001D U+1031 U+E107 U+102F` — Na promoted to
`U+E107`, the E sign relocated before it behind the `U+001D` marker, and
the U sign kept. -/
theorem C4_na_vowel_split :
    reshaperV13 [0x1014, 0x1031, 0x102F] = some [0x1D, 0x1031, 0xE107, 0x102F] ∧
    reshaperV16 [0x1014, 0x1031, 0x102F] = some [0x1D, 0x1031, 0xE107, 0x102F] := by
  refine ⟨by decide, by decide⟩

/-- C5.  On the wide-base scenario input `U+103C U+1000` the code of both
versions raises `IndexError`: pass 2 first wraps the medial Ra to the end
and back, pass 3 rewrites it to `U+E1B2`, and the YaYit-variant pass then
reads `html_list[i+2]` past the end of the two-cell buffer.  Under the
bounds-checked semantics the spec mandates, both versions return exactly
`U+E1B2 U+1000`, as the claim states. -/
theorem C5_wide_base_scenario :
    reshaperV13 [0x103C, 0x1000] = none ∧
    reshaperV16 [0x103C, 0x1000] = none ∧
    reshaperSpecV13 [0x103C, 0x1000] = [0xE1B2, 0x1000] ∧
    reshaperSpecV16 [0x103C, 0x1000] = [0xE1B2, 0x1000] := by
  refine ⟨by decide, by decide, by decide, by decide⟩

/-- C6.  Scenario 4: on `U+102D U+1036` the adjacent pair collapses into
the single private glyph `U+E2D1` in the first cell, the second cell is
tombstoned (the final buffer is `[[U+E2D1], []]`), and serialization
drops the tombstone, giving the one-character output `U+E2D1` in both
versions. -/
theorem C6_ligature_collapse :
    runPasses passesV13 (toBuffer [0x102D, 0x1036]) = some [[0xE2D1], []] ∧
    runPasses passesV16 (toBuffer [0x102D, 0x1036]) = some [[0xE2D1], []] ∧
    reshaperV13 [0x102D, 0x1036] = some [0xE2D1] ∧
    reshaperV16 [0x102D, 0x1036] = some [0xE2D1] := by
  refine ⟨by decide, by decide, by decide, by decide⟩

/-- C7, counterexample.  On the claim's example input — `U+1001 U+103C`
followed by two ASCII letters — the first application completes, but the
second application raises `IndexError` (the re-ingested `U+103C` wraps to
the tail in pass 2 and then drives an `i+2` read past the end in pass 8),
so the claimed "both applications complete normally" fails there. -/
theorem C7_counterexample_example_crashes :
    reshaperV13 [0x1001, 0x103C, 0x61, 0x62] = some [0x103C, 0x1001, 0x61, 0x62] ∧
    reshaperV13 [0x103C, 0x1001, 0x61, 0x62] = none ∧
    reshaperV16 [0x1001, 0x103C, 0x61, 0x62] = some [0x103C, 0x1001, 0x61, 0x62] ∧
    reshaperV16 [0x103C, 0x1001, 0x61, 0x62] = none := by
  refine ⟨by decide, by decide, by decide, by decide⟩

/-- C7, amended.  The reshaper is not idempotent: on
`a U+1001 U+103C b c d` both the first and the second application
complete normally and the results differ — the second application moves
the output-position `U+103C` one cell further left. -/
theorem C7_not_idempotent :
    reshaperV13 [0x61, 0x1001, 0x103C, 0x62, 0x63, 0x64] =
      some [0x61, 0x103C, 0x1001, 0x62, 0x63, 0x64] ∧
    reshaperV13 [0x61, 0x103C, 0x1001, 0x62, 0x63, 0x64] =
      some [0x103C, 0x61, 0x1001, 0x62, 0x63, 0x64] ∧
    ([0x103C, 0x61, 0x1001, 0x62, 0x63, 0x64] : List Nat) ≠
      [0x61, 0x103C, 0x1001, 0x62, 0x63, 0x64] ∧
    reshaperV16 [0x61, 0x1001, 0x103C, 0x62, 0x63, 0x64] =
      some [0x61, 0x103C, 0x1001, 0x62, 0x63, 0x64] ∧
    reshaperV16 [0x61, 0x103C, 0x1001, 0x62, 0x63, 0x64] =
      some [0x103C, 0x61, 0x1001, 0x62, 0x63, 0x64] := by
  refine ⟨by decide, by decide, by decide, by decide, by decide⟩

/-- C8.  The buffer length is invariant across every pass of both
versions: for every input and every prefix of the pass pipeline that
completes, the resulting buffer has exactly one cell per input scalar —
cells are only rewritten in place, never inserted or removed. -/
theorem C8_buffer_length_invariant :
    (∀ (s : List Nat) (k : Nat) (b : Buffer),
        runPasses (passesV13.take k) (toBuffer s) = some b → b.length = s.length) ∧
    (∀ (s : List Nat) (k : Nat) (b : Buffer),
        runPasses (passesV16.take k) (toBuffer s) = some b → b.length = s.length) := by
  constructor
  · intro s k b h
    have hb := runPasses_len (passesV13.take k)
      (fun p hp => presAllV13 p (List.take_subset k passesV13 hp)) (toBuffer s) b h
    exact hb.trans (toBuffer_length s)
  · intro s k b h
    have hb := runPasses_len (passesV16.take k)
      (fun p hp => presAllV16 p (List.take_subset k passesV16 hp)) (toBuffer s) b h
    exact hb.trans (toBuffer_length s)

/-- C8, witness: the invariant applied to the two-cell ligature input run
through all eight v13 passes. -/
theorem C8_buffer_length_invariant_witness :
    runPasses (passesV13.take 8) (toBuffer [0x102D, 0x1036]) = some [[0xE2D1], []] ∧
    ([[0xE2D1], []] : Buffer).length = ([0x102D, 0x1036] : List Nat).length :=
  ⟨by decide,
   C8_buffer_length_invariant.1 [0x102D, 0x1036] 8 [[0xE2D1], []] (by decide)⟩

/-- C9.  The two versions differ in whether the letter Ra `U+101B`
triggers the pass-1 E reorder: on `U+1000 U+101B U+1031 a b c d` the v13
reshaper swaps the E sign with the preceding Ra while the v16 reshaper
returns the input unchanged, so the outputs differ. -/
theorem C9_ra_reorder_divergence :
    reshaperV13 [0x1000, 0x101B, 0x1031, 0x61, 0x62, 0x63, 0x64] =
      some [0x1000, 0x1031, 0x101B, 0x61, 0x62, 0x63, 0x64] ∧
    reshaperV16 [0x1000, 0x101B, 0x1031, 0x61, 0x62, 0x63, 0x64] =
      some [0x1000, 0x101B, 0x1031, 0x61, 0x62, 0x63, 0x64] ∧
    reshaperV13 [0x1000, 0x101B, 0x1031, 0x61, 0x62, 0x63, 0x64] ≠
      reshaperV16 [0x1000, 0x101B, 0x1031, 0x61, 0x62, 0x63, 0x64] := by
  refine ⟨by decide, by decide, by decide⟩

/-- C10.  The reshaper is not injective: the distinct inputs
`U+102D U+1036` and `U+E2D1` both complete normally and map to the same
output `U+E2D1` in both versions, so logical-order text cannot in general
be recovered from the reshaped output. -/
theorem C10_not_injective :
    reshaperV13 [0x102D, 0x1036] = some [0xE2D1] ∧
    reshaperV13 [0xE2D1] = some [0xE2D1] ∧
    reshaperV16 [0x102D, 0x1036] = some [0xE2D1] ∧
    reshaperV16 [0xE2D1] = some [0xE2D1] ∧
    ([0x102D, 0x1036] : List Nat) ≠ [0xE2D1] := by
  refine ⟨by decide, by decide, by decide, by decide, by decide⟩

end MyanmarReshape
